import Mathlib

/-!
Verification of the twilog-search core against its implementation.

The Python sources are shallowly embedded: dictionaries become association
lists, tensors become lists of rationals, Python exceptions become `Except`
values, and floating-point similarity kernels are abstracted as function
parameters (the structural claims below do not depend on their numeric
values).  Strings are manipulated through their character lists, mirroring
Python's index-based loops.
-/

namespace Twilog

/-- Python `list[:n]` slicing with an integer bound: a non-negative bound
takes a prefix, a negative bound drops `-n` elements from the end
(clamped at zero). -/
def pySlice (n : Int) (l : List α) : List α :=
  if 0 ≤ n then l.take n.toNat
  else l.take (l.length - (-n).toNat)

/-- Insert `x` into a descending-sorted list, after all elements whose key
is not smaller than `x`'s (stable descending insertion; `lt a b` reads
"`a`'s key is strictly below `b`'s"). -/
def insertDescBy (lt : α → α → Bool) (x : α) : List α → List α
  | [] => [x]
  | y :: ys => if lt y x then x :: y :: ys else y :: insertDescBy lt x ys

/-- Stable sort into descending key order (models Python
`list.sort(key=..., reverse=True)` and `torch.argsort(..., descending=True)`
up to tie order, which no verified property depends on). -/
def sortDescBy (lt : α → α → Bool) (l : List α) : List α :=
  l.foldl (fun acc x => insertDescBy lt x acc) []

theorem insertDescBy_perm (lt : α → α → Bool) (x : α) (l : List α) :
    List.Perm (insertDescBy lt x l) (x :: l) := by
  induction l with
  | nil => simp [insertDescBy]
  | cons y ys ih =>
    simp only [insertDescBy]
    by_cases h : lt y x
    · simp [h]
    · simp only [h, if_false]
      exact (ih.cons y).trans (List.Perm.swap x y ys)

theorem sortDescBy_perm (lt : α → α → Bool) (l : List α) :
    List.Perm (sortDescBy lt l) l := by
  suffices h : ∀ acc : List α,
      List.Perm (l.foldl (fun acc x => insertDescBy lt x acc) acc) (acc ++ l) by
    simpa using h []
  induction l with
  | nil => intro acc; simp
  | cons y ys ih =>
    intro acc
    simp only [List.foldl_cons]
    refine (ih (insertDescBy lt y acc)).trans ?_
    have h1 : List.Perm (insertDescBy lt y acc ++ ys) ((y :: acc) ++ ys) :=
      (insertDescBy_perm lt y acc).append_right ys
    refine h1.trans ?_
    simp only [List.cons_append]
    exact (List.perm_middle).symm

theorem sortDescBy_length (lt : α → α → Bool) (l : List α) :
    (sortDescBy lt l).length = l.length :=
  (sortDescBy_perm lt l).length_eq

theorem mem_insertDescBy (lt : α → α → Bool) (x : α) (l : List α) (y : α)
    (h : y ∈ insertDescBy lt x l) : y = x ∨ y ∈ l :=
  List.mem_cons.mp ((insertDescBy_perm lt x l).mem_iff.mp h)

/-- Insertion preserves descending pairwise order, given asymmetry and a
negative-transitivity property of the comparator. -/
theorem insertDescBy_pairwise (lt : α → α → Bool)
    (hasym : ∀ a b, lt a b = true → lt b a = false)
    (hnegtrans : ∀ a b c, lt a b = false → lt b c = false → lt a c = false)
    (x : α) (l : List α)
    (hl : l.Pairwise (fun a b => lt a b = false)) :
    (insertDescBy lt x l).Pairwise (fun a b => lt a b = false) := by
  induction l with
  | nil => simp [insertDescBy]
  | cons y ys ih =>
    rcases List.pairwise_cons.mp hl with ⟨hy, hys⟩
    simp only [insertDescBy]
    cases h : lt y x with
    | true =>
      rw [if_pos (by simp [h])]
      refine List.pairwise_cons.mpr ⟨?_, hl⟩
      intro z hz
      rcases List.mem_cons.mp hz with hz | hz
      · subst hz; exact hasym _ _ h
      · exact hnegtrans x y z (hasym y x h) (hy z hz)
    | false =>
      rw [if_neg (by simp [h])]
      refine List.pairwise_cons.mpr ⟨?_, ih hys⟩
      intro z hz
      rcases mem_insertDescBy lt x ys z hz with hz | hz
      · subst hz; exact h
      · exact hy z hz

theorem sortDescBy_pairwise (lt : α → α → Bool)
    (hasym : ∀ a b, lt a b = true → lt b a = false)
    (hnegtrans : ∀ a b c, lt a b = false → lt b c = false → lt a c = false)
    (l : List α) :
    (sortDescBy lt l).Pairwise (fun a b => lt a b = false) := by
  suffices h : ∀ acc : List α, acc.Pairwise (fun a b => lt a b = false) →
      (l.foldl (fun acc x => insertDescBy lt x acc) acc).Pairwise
        (fun a b => lt a b = false) by
    exact h [] (by simp)
  induction l with
  | nil => intro acc hacc; simpa using hacc
  | cons y ys ih =>
    intro acc hacc
    exact ih (insertDescBy lt y acc)
      (insertDescBy_pairwise lt hasym hnegtrans y acc hacc)

/-- Association-list lookup (models Python `dict.get`; newest binding
first). -/
def alookup [DecidableEq κ] : List (κ × ν) → κ → Option ν
  | [], _ => none
  | (k, v) :: rest, key => if key = k then some v else alookup rest key

/-- Replace the newest binding of `key` (models Python `dict[key] = v` for
an existing key). -/
def aupdate [DecidableEq κ] : List (κ × ν) → κ → ν → List (κ × ν)
  | [], _, _ => []
  | (k, v) :: rest, key, nv =>
    if key = k then (k, nv) :: rest else (k, v) :: aupdate rest key nv

end Twilog

namespace Twilog

/-! ### settings.py — `UserFilterSettings`

`filter_settings` is a Python dict holding at most the keys `includes`,
`excludes`, `threshold_min`, `threshold_max`; it is embedded as four
optional fields. -/

structure UserFilterState where
  includes : Option (List String)
  excludes : Option (List String)
  threshold_min : Option Int
  threshold_max : Option Int
deriving DecidableEq, Repr

/-- `UserFilterSettings.__init__` / `set_none`: the empty dict. -/
def UserFilterState.empty : UserFilterState := ⟨none, none, none, none⟩

/-- The mutating methods of `UserFilterSettings`. -/
inductive UserFilterOp where
  | set_none
  | set_includes (users : List String)
  | set_excludes (users : List String)
  | set_threshold_min (min_posts : Int)
  | set_threshold_max (max_posts : Int)
  | clear_includes
  | clear_excludes
  | clear_threshold_min
  | clear_threshold_max
deriving DecidableEq, Repr

/-- One method call of `UserFilterSettings`, translated line by line:
`set_includes`/`set_excludes` replace the whole dict with a single key,
`set_threshold_min` builds a fresh dict keeping the old maximum only when
`min_posts < max_posts` (and symmetrically for `set_threshold_max`), and
the `clear_*` methods delete a single key. -/
def UserFilterState.apply (s : UserFilterState) : UserFilterOp → UserFilterState
  | .set_none => UserFilterState.empty
  | .set_includes users => ⟨some users, none, none, none⟩
  | .set_excludes users => ⟨none, some users, none, none⟩
  | .set_threshold_min min_posts =>
    ⟨none, none, some min_posts,
      match s.threshold_max with
      | some max_posts => if min_posts < max_posts then some max_posts else none
      | none => none⟩
  | .set_threshold_max max_posts =>
    ⟨none, none,
      match s.threshold_min with
      | some min_posts => if min_posts < max_posts then some min_posts else none
      | none => none,
      some max_posts⟩
  | .clear_includes => { s with includes := none }
  | .clear_excludes => { s with excludes := none }
  | .clear_threshold_min => { s with threshold_min := none }
  | .clear_threshold_max => { s with threshold_max := none }

/-- Run a sequence of `UserFilterSettings` method calls from the freshly
constructed state. -/
def UserFilterState.run (ops : List UserFilterOp) : UserFilterState :=
  ops.foldl UserFilterState.apply UserFilterState.empty

/-- The state invariant of claim C10: includes/excludes are mutually
exclusive, thresholds are strictly ordered when both present, and a user
list never coexists with a threshold. -/
def UserFilterState.Inv (s : UserFilterState) : Prop :=
  (s.includes = none ∨ s.excludes = none) ∧
  (∀ mn mx, s.threshold_min = some mn → s.threshold_max = some mx → mn < mx) ∧
  ((s.includes ≠ none ∨ s.excludes ≠ none) →
    s.threshold_min = none ∧ s.threshold_max = none)

theorem userFilter_empty_inv : UserFilterState.Inv UserFilterState.empty :=
  ⟨Or.inl rfl, fun mn mx h _ => by simp [UserFilterState.empty] at h,
   fun _ => ⟨rfl, rfl⟩⟩

theorem userFilter_apply_inv (s : UserFilterState) (op : UserFilterOp)
    (h : s.Inv) : (s.apply op).Inv := by
  obtain ⟨h1, h2, h3⟩ := h
  cases op with
  | set_none => exact userFilter_empty_inv
  | set_includes users =>
    refine ⟨Or.inr rfl, ?_, ?_⟩ <;> simp [UserFilterState.apply]
  | set_excludes users =>
    refine ⟨Or.inl rfl, ?_, ?_⟩ <;> simp [UserFilterState.apply]
  | set_threshold_min min_posts =>
    refine ⟨Or.inl rfl, ?_, ?_⟩
    · intro mn mx hmn hmx
      simp only [UserFilterState.apply] at hmn hmx
      cases hmax : s.threshold_max with
      | none => simp [hmax] at hmx
      | some max_posts =>
        simp only [hmax] at hmx
        by_cases hlt : min_posts < max_posts
        · simp only [hlt, if_true] at hmx
          cases hmn; cases hmx; exact hlt
        · simp [hlt] at hmx
    · intro hne
      simp only [UserFilterState.apply] at hne
      rcases hne with hne | hne <;> simp at hne
  | set_threshold_max max_posts =>
    refine ⟨Or.inl rfl, ?_, ?_⟩
    · intro mn mx hmn hmx
      simp only [UserFilterState.apply] at hmn hmx
      cases hmin : s.threshold_min with
      | none => simp [hmin] at hmn
      | some min_posts =>
        simp only [hmin] at hmn
        by_cases hlt : min_posts < max_posts
        · simp only [hlt, if_true] at hmn
          cases hmn; cases hmx; exact hlt
        · simp [hlt] at hmn
    · intro hne
      simp only [UserFilterState.apply] at hne
      rcases hne with hne | hne <;> simp at hne
  | clear_includes =>
    refine ⟨Or.inl rfl, h2, ?_⟩
    intro hne
    rcases hne with hne | hne
    · simp [UserFilterState.apply] at hne
    · exact h3 (Or.inr hne)
  | clear_excludes =>
    refine ⟨Or.inr rfl, h2, ?_⟩
    intro hne
    rcases hne with hne | hne
    · exact h3 (Or.inl hne)
    · simp [UserFilterState.apply] at hne
  | clear_threshold_min =>
    refine ⟨h1, ?_, ?_⟩
    · intro mn mx hmn
      simp [UserFilterState.apply] at hmn
    · intro hne
      exact ⟨rfl, (h3 hne).2⟩
  | clear_threshold_max =>
    refine ⟨h1, ?_, ?_⟩
    · intro mn mx hmn hmx
      simp [UserFilterState.apply] at hmx
    · intro hne
      exact ⟨(h3 hne).1, rfl⟩

end Twilog

namespace Twilog

/-! ### String utilities shared by the embeddings -/

/-- Python's `in` operator on strings: `needle` occurs as a contiguous
substring of `haystack` (the empty needle always matches). -/
def containsSub (needle : List Char) : List Char → Bool
  | [] => needle.isEmpty
  | c :: rest =>
    if needle.isPrefixOf (c :: rest) then true else containsSub needle rest

/-- Python `str.lower()` (code points in our corpus are handled by
`Char.toLower`). -/
def pyLower (s : String) : List Char := s.data.map Char.toLower

/-- Python `str.strip()`: drop leading and trailing whitespace. -/
def pyStrip (s : String) : String :=
  String.mk (((s.data.dropWhile Char.isWhitespace).reverse.dropWhile
    Char.isWhitespace).reverse)

/-- Lexicographic `<` on code-point lists (Python string comparison). -/
def strLtList : List Char → List Char → Bool
  | [], [] => false
  | [], _ :: _ => true
  | _ :: _, [] => false
  | a :: as, b :: bs =>
    if a < b then true else if b < a then false else strLtList as bs

/-- Python `s1 < s2` on strings. -/
def strLt (a b : String) : Bool := strLtList a.data b.data

end Twilog

namespace Twilog

/-! ### text_proc.py -/

/-- The inner term-extraction loop of `parse_search_terms`
(text_proc.py, lines 42-64): returns the extracted term and the unread
remainder.  A backslash escapes the next character; a double quote toggles
quoting (the closing quote ends the term); unquoted whitespace ends the
term without being consumed; a trailing backslash is kept literally. -/
def extractTerm : List Char → Bool → List Char → List Char × List Char
  | [], _, acc => (acc, [])
  | '\\' :: d :: rest, quoted, acc => extractTerm rest quoted (acc ++ [d])
  | '"' :: rest, quoted, acc =>
    if quoted then (acc, rest) else extractTerm rest true acc
  | c :: rest, quoted, acc =>
    if c.isWhitespace && !quoted then (acc, c :: rest)
    else extractTerm rest quoted (acc ++ [c])

/-- The outer loop of `parse_search_terms` (text_proc.py, lines 23-71).
Fuel only bounds the recursion; every iteration consumes at least one
character, so `length + 1` units never run out. -/
def parseTermsLoop :
    Nat → List Char → List (List Char) → List (List Char) →
    List (List Char) × List (List Char)
  | 0, _, inc, exc => (inc, exc)
  | _ + 1, [], inc, exc => (inc, exc)
  | fuel + 1, c :: rest, inc, exc =>
    if c.isWhitespace then parseTermsLoop fuel rest inc exc
    else
      let p := if c = '-' then (true, rest) else (false, c :: rest)
      let t := extractTerm p.2 false []
      if t.1 = [] then parseTermsLoop fuel t.2 inc exc
      else if p.1 then parseTermsLoop fuel t.2 inc (exc ++ [t.1])
      else parseTermsLoop fuel t.2 (inc ++ [t.1]) exc

/-- `parse_search_terms(text)` (text_proc.py): shell-style include/exclude
tokenisation. -/
def parse_search_terms (text : String) : List String × List String :=
  let r := parseTermsLoop (text.data.length + 1) text.data [] []
  (r.1.map String.mk, r.2.map String.mk)

/-- `SearchEngine.is_text_match` (search_engine.py, lines 174-200): every
include term occurs case-insensitively, and no exclude term does.  The
`&&`/`!any` form is equivalent to the source's early-return chain because
`all [] = true` and `any [] = false`. -/
def is_text_match (content : String) (include_terms exclude_terms : List String) :
    Bool :=
  let cl := pyLower content
  (include_terms.all fun t => containsSub (pyLower t) cl) &&
  !(exclude_terms.any fun t => containsSub (pyLower t) cl)

/-- Modelled from the spec: `parse_pipeline_query` is imported by
search_engine.py from text_proc but is absent from the sources.  Spec §4.4:
the pipeline parser "splits on the first unquoted, unescaped `|`: left is
the `vector_query`, right is the `text_filter`. Either side may be empty
after trimming."  `splitPipe` finds that split point (a backslash escapes
the next character, double quotes toggle quoting). -/
def splitPipe : List Char → Bool → Option (List Char × List Char)
  | [], _ => none
  | '\\' :: d :: rest, q =>
    (splitPipe rest q).map (fun p => ('\\' :: d :: p.1, p.2))
  | '"' :: rest, q => (splitPipe rest (!q)).map (fun p => ('"' :: p.1, p.2))
  | '|' :: rest, q =>
    if q then (splitPipe rest q).map (fun p => ('|' :: p.1, p.2))
    else some ([], rest)
  | c :: rest, q => (splitPipe rest q).map (fun p => (c :: p.1, p.2))

/-- Modelled from the spec (§4.4): `parse_pipeline_query(query)` returns
`(vector_query, text_filter)`, both stripped; absent `|` means the whole
query is the vector part. -/
def parse_pipeline_query (query : String) : String × String :=
  match splitPipe query.data false with
  | some (l, r) => (pyStrip (String.mk l), pyStrip (String.mk r))
  | none => (pyStrip query, "")

end Twilog

namespace Twilog

/-! ### settings.py — date filter and predicates -/

/-- A parsed `datetime` value (year, month, day, hour, minute, second). -/
structure PyDateTime where
  year : Nat
  month : Nat
  day : Nat
  hour : Nat
  minute : Nat
  second : Nat
deriving DecidableEq, Repr

/-- Gregorian month lengths, as validated by `datetime`. -/
def daysInMonth (y m : Nat) : Nat :=
  if m = 2 then
    if (y % 4 = 0 && y % 100 != 0) || y % 400 = 0 then 29 else 28
  else if m = 4 || m = 6 || m = 9 || m = 11 then 30 else 31

def digitsToNat (l : List Char) : Nat :=
  l.foldl (fun n c => n * 10 + (c.toNat - '0'.toNat)) 0

/-- Modelled: Python `datetime.strptime(ts, "%Y-%m-%d %H:%M:%S")`, which
either yields a valid calendar datetime or raises `ValueError` (here:
`none`). -/
def parseDateTime (s : String) : Option PyDateTime :=
  match s.data with
  | [y1, y2, y3, y4, '-', m1, m2, '-', d1, d2, ' ',
     h1, h2, ':', mi1, mi2, ':', s1, s2] =>
    if [y1, y2, y3, y4, m1, m2, d1, d2, h1, h2, mi1, mi2, s1, s2].all
        Char.isDigit then
      let y := digitsToNat [y1, y2, y3, y4]
      let mo := digitsToNat [m1, m2]
      let d := digitsToNat [d1, d2]
      let h := digitsToNat [h1, h2]
      let mi := digitsToNat [mi1, mi2]
      let se := digitsToNat [s1, s2]
      if 1 ≤ mo && mo ≤ 12 && 1 ≤ d && d ≤ daysInMonth y mo &&
         h ≤ 23 && mi ≤ 59 && se ≤ 59 then
        some ⟨y, mo, d, h, mi, se⟩
      else none
    else none
  | _ => none

/-- Order-embedding key: `datetime` values compare lexicographically by
field. -/
def PyDateTime.key (t : PyDateTime) : Nat :=
  ((((t.year * 13 + t.month) * 32 + t.day) * 24 + t.hour) * 60 + t.minute)
    * 60 + t.second

/-- `DateFilterSettings.filter_settings`: a dict with the optional keys
`from` and `to` (`from` is a Lean keyword, hence the field names). -/
structure DateFilterState where
  dateFrom : Option String
  dateTo : Option String
deriving DecidableEq, Repr

def DateFilterState.empty : DateFilterState := ⟨none, none⟩

/-- `DateFilterSettings.is_date_allowed` (settings.py, lines 229-259): an
empty setting or an empty timestamp passes; any `strptime` failure inside
the `try` block passes (the `except` returns `True`); otherwise the parsed
timestamp is compared against the parsed bounds. -/
def DateFilterState.is_date_allowed (f : DateFilterState) (timestamp : String) :
    Bool :=
  if f.dateFrom = none && f.dateTo = none then true
  else if timestamp = "" then true
  else
    match parseDateTime timestamp with
    | none => true
    | some post =>
      match f.dateFrom, f.dateTo with
      | some fs, none =>
        match parseDateTime fs with
        | none => true
        | some fd => fd.key ≤ post.key
      | none, some ts =>
        match parseDateTime ts with
        | none => true
        | some td => post.key ≤ td.key
      | some fs, some ts =>
        match parseDateTime fs, parseDateTime ts with
        | some fd, some td => fd.key ≤ post.key && post.key ≤ td.key
        | _, _ => true
      | none, none => true

/-- `UserFilterSettings.is_user_allowed` (settings.py, lines 135-159):
empty settings pass everything; `includes` is checked before `excludes`
(`elif` in the source); thresholds compare against the user's post count
(missing user counts as `0`). -/
def UserFilterState.is_user_allowed (s : UserFilterState) (user : String)
    (counts : List (String × Int)) : Bool :=
  if s = UserFilterState.empty then true
  else
    let userOk :=
      match s.includes with
      | some us => us.contains user
      | none =>
        match s.excludes with
        | some us => !us.contains user
        | none => true
    if !userOk then false
    else
      let post_count := (alookup counts user).getD 0
      let minOk :=
        match s.threshold_min with
        | some mn => !(post_count < mn)
        | none => true
      let maxOk :=
        match s.threshold_max with
        | some mx => !(mx < post_count)
        | none => true
      minOk && maxOk

end Twilog

namespace Twilog

/-! ### search_engine.py

Tensors are embedded as lists of rationals.  The floating-point
`F.cosine_similarity` kernel and the external SentenceTransformer embedder
(out of scope per spec §1) are abstracted as function-valued fields: every
structural theorem below holds for all kernels. -/

abbrev Vec := List ℚ

/-- One row of `TwilogDataAccess.posts_data` (data_csv.py). -/
structure PostData where
  url : String
  timestamp : String
  content : String
  log_type : String
deriving DecidableEq, Repr

/-- One entry of `SearchEngine.tags_data` (batch/results.jsonl record). -/
structure TagData where
  reasoning : String
  summary : String
  tags : List String
deriving DecidableEq, Repr

/-- The `post_info` dict produced by the search paths; the auxiliary keys
exist only when tag data was attached. -/
structure PostInfo where
  post_id : Int
  content : String
  timestamp : String
  url : String
  user : String
  reasoning : Option String := none
  summary : Option String := none
  tags : Option (List String) := none
deriving DecidableEq, Repr

/-- The in-memory state of `SearchEngine` after `initialize()` and
`_load_all_vectors()`: `post_ids` are the *content* store's ids (the
reasoning/summary id lists are discarded at load, search_engine.py lines
160-172). -/
structure SearchEngine where
  posts_data : List (Int × PostData)
  post_user_map : List (Int × String)
  user_post_counts : List (String × Int)
  tags_data : List (Int × TagData)
  post_ids : List Int
  content_vectors : Option (List Vec)
  reasoning_vectors : Option (List Vec)
  summary_vectors : Option (List Vec)
  embed_text : String → Vec
  cosine_similarity : Vec → Vec → ℚ

/-- The `ValueError`/`RuntimeError` kinds raised by the engine. -/
inductive EngineError where
  | emptyQuery
  | vectorQueryEmpty
  | modeUnavailable (mode : String)
  | hybridNotSupported (mode : String)
  | unknownMode (mode : String)
  | tensorError
deriving DecidableEq, Repr

/-- `x is not None and len(x) > 0` on an optional tensor. -/
def nonemptyStore : Option (List Vec) → Bool
  | some (_ :: _) => true
  | _ => false

/-- `SearchEngine._get_available_modes` (lines 202-223): each single-source
mode needs its own store; the three fusion modes are appended as soon as at
least TWO single-source modes are available. -/
def SearchEngine.get_available_modes (e : SearchEngine) : List String :=
  let available :=
    (if nonemptyStore e.content_vectors then ["content"] else []) ++
    (if nonemptyStore e.reasoning_vectors then ["reasoning"] else []) ++
    (if nonemptyStore e.summary_vectors then ["summary"] else [])
  if 2 ≤ available.length then available ++ ["average", "product", "weighted"]
  else available

/-- `SearchEngine._validate_search_mode` (lines 225-238): `ValueError` when
the mode is not available. -/
def SearchEngine.validate_search_mode (e : SearchEngine) (mode : String) :
    Except EngineError Unit :=
  if e.get_available_modes.contains mode then .ok ()
  else .error (.modeUnavailable mode)

def rowSims (e : SearchEngine) (q : Vec) (rows : List Vec) : List ℚ :=
  rows.map (fun v => e.cosine_similarity v q)

def allEqLengths : List (List ℚ) → Bool
  | [] => true
  | l :: ls => ls.all (fun m => m.length == l.length)

def addVec (a b : List ℚ) : List ℚ := List.zipWith (· + ·) a b

def mulVec (a b : List ℚ) : List ℚ := List.zipWith (· * ·) a b

def sumSims : List (List ℚ) → List ℚ
  | [] => []
  | l :: ls => ls.foldl addVec l

def prodSims : List (List ℚ) → List ℚ
  | [] => []
  | l :: ls => ls.foldl mulVec l

/-- `SearchEngine._calculate_similarities` (lines 240-300).  Single-source
modes score their own full matrix; fusion modes collect the similarity
vectors of every *available* store (no common-set slicing of any kind) and
combine them by mean, elementwise product, or normalised weights (default
`[0.7, 0.2, 0.1]`).  `torch.stack`/elementwise arithmetic on ragged
similarity vectors raises, embedded as `tensorError`. -/
def SearchEngine.calculate_similarities (e : SearchEngine) (query_vector : Vec)
    (mode : String) (weights : Option (List ℚ)) : Except EngineError (List ℚ) :=
  if mode = "content" then
    match e.content_vectors with
    | some rows => .ok (rowSims e query_vector rows)
    | none => .error .tensorError
  else if mode = "reasoning" then
    match e.reasoning_vectors with
    | some rows => .ok (rowSims e query_vector rows)
    | none => .error .tensorError
  else if mode = "summary" then
    match e.summary_vectors with
    | some rows => .ok (rowSims e query_vector rows)
    | none => .error .tensorError
  else if mode = "average" || mode = "product" || mode = "weighted" then
    let similarities :=
      (if nonemptyStore e.content_vectors then
        [rowSims e query_vector (e.content_vectors.getD [])] else []) ++
      (if nonemptyStore e.reasoning_vectors then
        [rowSims e query_vector (e.reasoning_vectors.getD [])] else []) ++
      (if nonemptyStore e.summary_vectors then
        [rowSims e query_vector (e.summary_vectors.getD [])] else [])
    if similarities.length = 0 then .ok []
    else if !allEqLengths similarities then .error .tensorError
    else if mode = "average" then
      .ok ((sumSims similarities).map (fun x => x / (similarities.length : ℚ)))
    else if mode = "product" then .ok (prodSims similarities)
    else
      let ws := (weights.getD [(7 : ℚ)/10, 2/10, 1/10]).take similarities.length
      let wsum := ws.foldl (· + ·) 0
      let ws := if 0 < wsum then ws.map (· / wsum) else ws
      let weighted := List.zipWith (fun sim w => sim.map (· * w)) similarities ws
      if weighted = [] then .error .tensorError else .ok (sumSims weighted)
  else .error (.unknownMode mode)

/-- `SearchEngine._convert_mode_to_source` (lines 302-324). -/
def convert_mode_to_source (mode : String) : Except EngineError String :=
  if mode = "content" || mode = "reasoning" || mode = "summary" then .ok mode
  else if mode = "average" || mode = "product" || mode = "weighted" then
    .error (.hybridNotSupported mode)
  else .error (.unknownMode mode)

/-- The result-collection loop of `SearchEngine.vector_search`
(lines 372-390): walk the score-sorted row indices, map each through the
content id list, apply the optional text filter on the post's `content`
field, stop once `top_k` results are collected (the bound is checked after
appending). -/
def collectLoop (e : SearchEngine) (inc exc : List String) (useFilter : Bool)
    (top_k : Option Nat) :
    List (Nat × ℚ) → List (Int × ℚ) → List (Int × ℚ)
  | [], acc => acc
  | (idx, sim) :: rest, acc =>
    let post_id := e.post_ids.getD idx 0
    let content := ((alookup e.posts_data post_id).map PostData.content).getD ""
    if useFilter && !is_text_match content inc exc then
      collectLoop e inc exc useFilter top_k rest acc
    else
      let acc' := acc ++ [(post_id, sim)]
      match top_k with
      | some k => if k ≤ acc'.length then acc'
                  else collectLoop e inc exc useFilter top_k rest acc'
      | none => collectLoop e inc exc useFilter top_k rest acc'

/-- `SearchEngine.vector_search` (lines 326-391). -/
def SearchEngine.vector_search (e : SearchEngine) (query : String)
    (top_k : Option Nat) (mode : String) (weights : Option (List ℚ)) :
    Except EngineError (List (Int × ℚ)) :=
  let pq := parse_pipeline_query query
  if pq.1 = "" then .error .vectorQueryEmpty
  else
    let query_vector := e.embed_text pq.1
    match e.validate_search_mode mode with
    | .error err => .error err
    | .ok _ =>
      match e.calculate_similarities query_vector mode weights with
      | .error err => .error err
      | .ok similarities =>
        if similarities.length = 0 then .ok []
        else
          let sorted :=
            sortDescBy (fun a b => decide (a.2 < b.2)) similarities.enum
          let tp := if pq.2 = "" then ([], []) else parse_search_terms pq.2
          .ok (collectLoop e tp.1 tp.2 (pq.2 ≠ "") top_k sorted [])

/-- `SearchEngine._get_search_text` (lines 574-597). -/
def SearchEngine.get_search_text (e : SearchEngine) (post_id : Int)
    (source : String) : String :=
  if source = "content" then
    ((alookup e.posts_data post_id).map PostData.content).getD ""
  else if source = "reasoning" || source = "summary" then
    match alookup e.tags_data post_id with
    | none => ""
    | some td => if source = "reasoning" then td.reasoning else td.summary
  else ""

/-- Build the result dict of `search_posts_by_text` (lines 622-634),
attaching tag data when present. -/
def mkTextResult (e : SearchEngine) (post_id : Int) (pd : PostData) : PostInfo :=
  let base : PostInfo :=
    { post_id := post_id, content := pd.content, timestamp := pd.timestamp,
      url := pd.url, user := (alookup e.post_user_map post_id).getD "" }
  match alookup e.tags_data post_id with
  | some td =>
    { base with reasoning := some td.reasoning, summary := some td.summary,
                tags := some td.tags }
  | none => base

/-- `SearchEngine.search_posts_by_text` (lines 599-639): substring search
over the selected source, newest first, truncated by Python slicing.  No
range check is applied to `limit`. -/
def SearchEngine.search_posts_by_text (e : SearchEngine) (search_term : String)
    (limit : Int) (source : String) : List PostInfo :=
  let tp := parse_search_terms search_term
  let results := e.posts_data.filterMap (fun p =>
    if is_text_match (e.get_search_text p.1 source) tp.1 tp.2 then
      some (mkTextResult e p.1 p.2)
    else none)
  pySlice limit (sortDescBy (fun a b => strLt a.timestamp b.timestamp) results)

/-- `SearchEngine._enrich_post_info` (lines 409-422); note the Python
truthiness test `if post_id and ...` skips id `0`. -/
def SearchEngine.enrich_post_info (e : SearchEngine) (pi : PostInfo) : PostInfo :=
  if pi.post_id ≠ 0 then
    match alookup e.tags_data pi.post_id with
    | some td =>
      { pi with reasoning := some td.reasoning, summary := some td.summary,
                tags := some td.tags }
    | none => pi
  else pi

/-- `SearchEngine._generate_text_results` (lines 393-407): the text-only
path scores every hit `1.0`. -/
def SearchEngine.generate_text_results (e : SearchEngine)
    (text_filter source : String) : List (PostInfo × ℚ) :=
  (e.search_posts_by_text text_filter 10000 source).map (fun r => (r, 1))

/-- `SearchEngine._generate_vector_results` (lines 424-451). -/
def SearchEngine.generate_vector_results (e : SearchEngine) (query : String)
    (mode : String) (weights : Option (List ℚ)) :
    Except EngineError (List (PostInfo × ℚ)) :=
  match e.vector_search query none mode weights with
  | .error err => .error err
  | .ok all_results =>
    .ok (all_results.map (fun pr =>
      let pd := (alookup e.posts_data pr.1).getD ⟨"", "", "", ""⟩
      let pi : PostInfo :=
        { post_id := pr.1, content := pyStrip pd.content,
          timestamp := pd.timestamp, url := pd.url,
          user := (alookup e.post_user_map pr.1).getD "" }
      (e.enrich_post_info pi, pr.2)))

/-- The fields of `SearchSettings` consumed by `search_similar`. -/
structure SearchSettingsState where
  user_filter : UserFilterState
  date_filter : DateFilterState
  top_k : Int
deriving DecidableEq, Repr

/-- `SearchSettings()` defaults. -/
def SearchSettingsState.default : SearchSettingsState :=
  ⟨UserFilterState.empty, DateFilterState.empty, 10⟩

/-- The value stored in `seen_combinations` (search_engine.py line 482). -/
structure SeenEntry where
  post_id : Int
  similarity : ℚ
  timestamp : String
  url : String
deriving DecidableEq, Repr

/-- The unified filtering loop of `SearchEngine.search_similar`
(lines 479-524), translated statement by statement: user filter, date
filter, duplicate check keyed by `(user, content)` — where an
earlier-timestamped later arrival only overwrites the `seen_combinations`
entry and then `continue`s, leaving `filtered_results` untouched — then
enrichment, append with the current rank, and the `top_k` stop test after
the append. -/
def searchFilterLoop (e : SearchEngine) (settings : SearchSettingsState) :
    List (PostInfo × ℚ) → List ((String × String) × SeenEntry) →
    List (Nat × ℚ × PostInfo) → Nat → List (Nat × ℚ × PostInfo)
  | [], _, acc, _ => acc
  | (pi, sim) :: rest, seen, acc, rank =>
    if !settings.user_filter.is_user_allowed pi.user e.user_post_counts then
      searchFilterLoop e settings rest seen acc rank
    else if !settings.date_filter.is_date_allowed pi.timestamp then
      searchFilterLoop e settings rest seen acc rank
    else
      match alookup seen (pi.user, pi.content) with
      | some entry =>
        if strLt pi.timestamp entry.timestamp then
          searchFilterLoop e settings rest
            (aupdate seen (pi.user, pi.content)
              ⟨pi.post_id, sim, pi.timestamp, pi.url⟩) acc rank
        else
          searchFilterLoop e settings rest seen acc rank
      | none =>
        let seen' := ((pi.user, pi.content),
          SeenEntry.mk pi.post_id sim pi.timestamp pi.url) :: seen
        let acc' := acc ++ [(rank, sim, e.enrich_post_info pi)]
        if settings.top_k ≤ (acc'.length : Int) then acc'
        else searchFilterLoop e settings rest seen' acc' (rank + 1)

/-- `SearchEngine.search_similar` (lines 453-524). -/
def SearchEngine.search_similar (e : SearchEngine) (query : String)
    (settings : SearchSettingsState) (mode : String)
    (weights : Option (List ℚ)) :
    Except EngineError (List (Nat × ℚ × PostInfo)) :=
  let pq := parse_pipeline_query query
  if pq.1 = "" then
    if pq.2 = "" then .error .emptyQuery
    else
      match convert_mode_to_source mode with
      | .error err => .error err
      | .ok text_source =>
        .ok (searchFilterLoop e settings
          (e.generate_text_results pq.2 text_source) [] [] 1)
  else
    match e.generate_vector_results query mode weights with
    | .error err => .error err
    | .ok gen => .ok (searchFilterLoop e settings gen [] [] 1)

end Twilog

namespace Twilog

/-! ### vector_store.py -/

/-- The loaded state of `VectorStore`. -/
structure VectorStore where
  post_ids : List Int
  vectors : Option (List Vec)
  post_id_to_index : List (Int × Nat)
  loaded : Bool

inductive StoreError where
  | vectorFilesMissing
deriving DecidableEq, Repr

/-- The dict comprehension `{post_id: idx for idx, post_id in enumerate(...)}`
of `load_vectors` (line 73): on a duplicated id the later row index silently
overwrites the earlier one. -/
def buildIndex (ids : List Int) : List (Int × Nat) :=
  (ids.enum.map (fun p => (p.2, p.1))).foldl (fun m kv =>
    match alookup m kv.1 with
    | some _ => aupdate m kv.1 kv.2
    | none => kv :: m) []

/-- `VectorStore.load_vectors` (vector_store.py, lines 42-77), with the
present chunk files given as `(post_ids, vectors)` pairs in file-index
order: ids and rows are concatenated as-is; the only failure is the absence
of any chunk file.  No duplicate-id check of any kind is performed. -/
def load_vectors (chunks : List (List Int × List Vec)) :
    Except StoreError VectorStore :=
  let all_post_ids := (chunks.map Prod.fst).flatten
  let all_vectors := chunks.map Prod.snd
  if all_vectors.isEmpty then .error .vectorFilesMissing
  else
    .ok { post_ids := all_post_ids,
          vectors := some all_vectors.flatten,
          post_id_to_index := buildIndex all_post_ids,
          loaded := true }

/-- `VectorStore.vector_search` (lines 98-134) on a loaded store, with the
floating-point cosine kernel abstracted as `kernel`: score every row,
argsort descending, return every row's `(post_id, similarity)` pair. -/
def VectorStore.vector_search (s : VectorStore) (kernel : Vec → Vec → ℚ)
    (query_vector : Vec) : List (Int × ℚ) :=
  match s.vectors with
  | none => []
  | some [] => []
  | some rows =>
    let similarities := rows.map (fun v => kernel v query_vector)
    let sorted := sortDescBy (fun a b => decide (a.2 < b.2)) similarities.enum
    sorted.map (fun p => (s.post_ids.getD p.1 0, p.2))

end Twilog

namespace Twilog

/-! ### twilog_server.py / embed_server.py -/

inductive ServerError where
  | notInitialized
  | invalidParams
deriving DecidableEq, Repr

/-- `TwilogServer.get_user_stats` (twilog_server.py, lines 203-218):
`RuntimeError` when the engine is missing, otherwise the post counts
sorted descending and truncated by Python slicing — the `limit` parameter
is used without any range validation. -/
def get_user_stats_handler (search_engine_ready : Bool)
    (user_post_counts : List (String × Int)) (limit : Int) :
    Except ServerError (List (String × Int)) :=
  if !search_engine_ready then .error .notInitialized
  else .ok (pySlice limit (sortDescBy (fun a b => decide (a.2 < b.2))
    user_post_counts))

/-- One JSON-RPC reply frame written by `handle_client`: the echoed request
id, a result payload, and the streaming flag (absent on non-streaming
replies). -/
structure RpcReply (α : Type) where
  id : Option Int
  result : α
  more : Option Bool
deriving DecidableEq, Repr

/-- What a handler returned: either an ordinary value or the
streaming-extension marker dict `{"streaming": chunks}`. -/
inductive HandlerResult (α : Type) where
  | plain (value : α)
  | streaming (chunks : List α)

/-- The reply-emission logic of `BaseEmbedServer.handle_client`
(embed_server.py, lines 105-124): a streaming result of `k` chunks becomes
`k` frames sharing the request id with `more := i < k - 1`; a plain result
becomes one frame without `more`. -/
def emitResponses (request_id : Option Int) :
    HandlerResult α → List (RpcReply α)
  | .plain v => [⟨request_id, v, none⟩]
  | .streaming chunks =>
    chunks.enum.map (fun p =>
      ⟨request_id, p.2, some (decide (p.1 < chunks.length - 1))⟩)

inductive DispatchOutcome where
  | invoked (handler : String)
  | methodNotFound (code : Int)
deriving DecidableEq, Repr

/-- The method dispatch of `BaseEmbedServer.handle_client` (lines 100-140):
`getattr(self, method, None)` followed by
`getattr(method_handler, '_is_rpc_method', False)` — an attribute is
invoked only when the `rpc_method` decorator marked it; everything else
(missing attributes included) yields the `-32601` error reply. -/
def rpcDispatch (attrs : List (String × Bool)) (method : String) :
    DispatchOutcome :=
  match alookup attrs method with
  | some true => .invoked method
  | _ => .methodNotFound (-32601)

/-- The attribute table of `EmbedServer` (embed_server.py): the flag is
whether the attribute carries a truthy `_is_rpc_method`, which only the
`rpc_method` decorator sets.  Decorated: `get_status`, `check_init`,
`stop_server`, `embed_text` (lines 221-281); every other method and data
attribute of the class and its base is unmarked. -/
def embedServerAttrs : List (String × Bool) :=
  [("get_status", true), ("check_init", true), ("stop_server", true),
   ("embed_text", true),
   ("start_server", false), ("init_model", false), ("_init_model", false),
   ("_start_server", false), ("_stop_server", false),
   ("handle_client", false), ("report_progress", false),
   ("notify_frontend_completion", false), ("notify_frontend_error", false),
   ("_embed_text", false), ("_encode_vector_to_safetensors", false),
   ("model", false), ("model_name", false), ("init_completed", false),
   ("server", false)]

end Twilog

namespace Twilog

/-! ### Concrete fixtures (spec §8 toy corpus) and shared lemmas -/

/-- A concrete similarity kernel for witnesses: the dot product (the spec
notes cosine reduces to it on unit vectors). -/
def dotQ (a b : Vec) : ℚ := (List.zipWith (· * ·) a b).foldl (· + ·) 0

/-- The three-post toy fixture of spec §8: posts 100 and 102 share
`(alice, "hello world")` with different timestamps. -/
def fixtureEngine : SearchEngine where
  posts_data :=
    [(100, ⟨"https://twitter.com/alice/status/100", "2023-01-01 00:00:00",
      "hello world", "1"⟩),
     (101, ⟨"https://twitter.com/bob/status/101", "2023-06-01 00:00:00",
      "machine learning", "1"⟩),
     (102, ⟨"https://twitter.com/alice/status/102", "2023-03-01 00:00:00",
      "hello world", "1"⟩)]
  post_user_map := [(100, "alice"), (101, "bob"), (102, "alice")]
  user_post_counts := [("alice", 2), ("bob", 1)]
  tags_data := []
  post_ids := [100, 101, 102]
  content_vectors := some [[1], [0], [1]]
  reasoning_vectors := none
  summary_vectors := none
  embed_text := fun _ => [1]
  cosine_similarity := dotQ

/-- An engine whose three stores are loaded with pairwise different id
sets: content ids `[1, 2]`, reasoning ids `[2, 3]`, summary ids `[2, 4]`
(the engine keeps only the content ids, search_engine.py lines 160-172). -/
def fusionEngine : SearchEngine where
  posts_data := []
  post_user_map := []
  user_post_counts := []
  tags_data := []
  post_ids := [1, 2]
  content_vectors := some [[1], [0]]
  reasoning_vectors := some [[1], [1]]
  summary_vectors := some [[1], [1]]
  embed_text := fun _ => [1]
  cosine_similarity := dotQ

/-- The reasoning/summary id lists as they sat in the loaded chunk files of
`fusionEngine`'s stores (discarded by `_load_all_vectors`). -/
def fusionReasoningIds : List Int := [2, 3]

def fusionSummaryIds : List Int := [2, 4]

/-- `fusionEngine` with the summary store absent: only two of the three
stores are loaded. -/
def twoStoreEngine : SearchEngine :=
  { fusionEngine with summary_vectors := none }

/-- A loaded three-row vector store for the C7 witness. -/
def storeFix : VectorStore :=
  { post_ids := [10, 11, 12], vectors := some [[1], [3], [2]],
    post_id_to_index := buildIndex [10, 11, 12], loaded := true }

theorem map_getD_range (l : List Int) :
    (List.range l.length).map (fun i => l.getD i 0) = l := by
  apply List.ext_get
  · simp
  · intro i h1 h2
    simp only [List.get_eq_getElem, List.getElem_map, List.getElem_range]
    exact List.getD_eq_getElem l 0 h2

/-- Sorting the enumerated similarities and mapping each row index through
the id list is a permutation of the id list. -/
theorem sorted_ids_perm (post_ids : List Int) (sims : List ℚ)
    (hlen : sims.length = post_ids.length) (lt : Nat × ℚ → Nat × ℚ → Bool) :
    List.Perm ((sortDescBy lt sims.enum).map (fun p => post_ids.getD p.1 0))
      post_ids := by
  have hperm := (sortDescBy_perm lt sims.enum).map
    (fun p : Nat × ℚ => post_ids.getD p.1 0)
  refine hperm.trans ?_
  have h2 : sims.enum.map (fun p : Nat × ℚ => post_ids.getD p.1 0) =
      (sims.enum.map Prod.fst).map (fun i => post_ids.getD i 0) := by
    rw [List.map_map]; rfl
  rw [h2, List.enum_map_fst, hlen, map_getD_range]

/-- The descending sort of similarity pairs is pairwise non-increasing in
the similarity component. -/
theorem sortDescBySims_pairwise (l : List (Nat × ℚ)) :
    (sortDescBy (fun a b => decide (a.2 < b.2)) l).Pairwise
      (fun a b => b.2 ≤ a.2) := by
  have h := sortDescBy_pairwise (fun a b : Nat × ℚ => decide (a.2 < b.2))
    (fun a b hab => by
      simp only [decide_eq_true_eq] at hab
      simpa using not_lt.mpr hab.le)
    (fun a b c hab hbc => by
      simp only [decide_eq_false_iff_not, not_lt] at hab hbc ⊢
      exact hbc.trans hab)
    l
  exact h.imp (fun {a b} hab => by
    simpa [decide_eq_false_iff_not, not_lt] using hab)

/-- With no text filter and no `top_k`, the collection loop of
`vector_search` just maps every sorted row through the content id list. -/
theorem collectLoop_no_filter (e : SearchEngine) (inc exc : List String) :
    ∀ (l : List (Nat × ℚ)) (acc : List (Int × ℚ)),
      collectLoop e inc exc false none l acc =
        acc ++ l.map (fun p => (e.post_ids.getD p.1 0, p.2)) := by
  intro l
  induction l with
  | nil => intro acc; simp [collectLoop]
  | cons x rest ih =>
    intro acc
    obtain ⟨idx, sim⟩ := x
    simp [collectLoop, ih]

end Twilog

namespace Twilog

/-- `Except` success test. -/
def isOkE : Except ε α → Bool
  | .ok _ => true
  | .error _ => false

theorem pySlice_sortDescBy_length_le (lt : α → α → Bool) (n : Int)
    (l : List α) : (pySlice n (sortDescBy lt l)).length ≤ l.length := by
  have h1 : (pySlice n (sortDescBy lt l)).length ≤ (sortDescBy lt l).length := by
    unfold pySlice
    split <;> simp [List.length_take]
  simpa [sortDescBy_length] using h1

/-- Number of loaded, non-empty vector stores. -/
def availableStoreCount (e : SearchEngine) : Nat :=
  (if nonemptyStore e.content_vectors then 1 else 0) +
  (if nonemptyStore e.reasoning_vectors then 1 else 0) +
  (if nonemptyStore e.summary_vectors then 1 else 0)

/-- Every score in the output of the filtering loop comes from the input
stream or the accumulator. -/
theorem searchFilterLoop_scores (e : SearchEngine)
    (settings : SearchSettingsState) :
    ∀ (stream : List (PostInfo × ℚ))
      (seen : List ((String × String) × SeenEntry))
      (acc : List (Nat × ℚ × PostInfo)) (rank : Nat),
      (∀ p ∈ stream, p.2 = 1) → (∀ r ∈ acc, r.2.1 = 1) →
      ∀ r ∈ searchFilterLoop e settings stream seen acc rank, r.2.1 = 1 := by
  intro stream
  induction stream with
  | nil =>
    intro seen acc rank _ hacc r hr
    exact hacc r (by simpa [searchFilterLoop] using hr)
  | cons p rest ih =>
    intro seen acc rank hstream hacc r hr
    obtain ⟨pi, sim⟩ := p
    have hsim : sim = 1 := hstream (pi, sim) (by simp)
    have hrest : ∀ q ∈ rest, q.2 = 1 := fun q hq => hstream q (by simp [hq])
    have hacc1 : ∀ q ∈ acc ++ [(rank, sim, e.enrich_post_info pi)], q.2.1 = 1 := by
      intro q hq
      rcases List.mem_append.mp hq with h | h
      · exact hacc q h
      · rw [List.mem_singleton.mp h, hsim]
    simp only [searchFilterLoop] at hr
    split at hr
    · exact ih seen acc rank hrest hacc r hr
    · split at hr
      · exact ih seen acc rank hrest hacc r hr
      · split at hr
        · split at hr
          · exact ih _ acc rank hrest hacc r hr
          · exact ih seen acc rank hrest hacc r hr
        · split at hr
          · exact hacc1 r hr
          · exact ih _ _ (rank + 1) hrest hacc1 r hr

end Twilog

namespace Twilog

/-! ### The claim theorems -/

/-- Claim C10: every `UserFilterSettings` state reachable through the
setter methods keeps includes/excludes mutually exclusive, keeps
`threshold_min < threshold_max` strictly whenever both are present, and
never combines a user list with a threshold; moreover `set_threshold_min`
drops a maximum that is not strictly above the new minimum together with
any includes/excludes key, and `set_threshold_max` symmetrically. -/
theorem userFilter_reachable_invariant :
    (∀ ops : List UserFilterOp, (UserFilterState.run ops).Inv) ∧
    (∀ (s : UserFilterState) (mn mx : Int), s.threshold_max = some mx →
      ¬ mn < mx →
      (s.apply (.set_threshold_min mn)).threshold_max = none ∧
      (s.apply (.set_threshold_min mn)).includes = none ∧
      (s.apply (.set_threshold_min mn)).excludes = none) ∧
    (∀ (s : UserFilterState) (mn mx : Int), s.threshold_min = some mn →
      ¬ mn < mx →
      (s.apply (.set_threshold_max mx)).threshold_min = none ∧
      (s.apply (.set_threshold_max mx)).includes = none ∧
      (s.apply (.set_threshold_max mx)).excludes = none) := by
  refine ⟨?_, ?_, ?_⟩
  · have hrun : ∀ (ops : List UserFilterOp) (s : UserFilterState), s.Inv →
        (ops.foldl UserFilterState.apply s).Inv := by
      intro ops
      induction ops with
      | nil => intro s hs; exact hs
      | cons op rest ih =>
        intro s hs
        exact ih _ (userFilter_apply_inv s op hs)
    exact fun ops => hrun ops _ userFilter_empty_inv
  · intro s mn mx hmx hlt
    refine ⟨?_, rfl, rfl⟩
    simp [UserFilterState.apply, hmx, hlt]
  · intro s mn mx hmn hlt
    refine ⟨?_, rfl, rfl⟩
    simp [UserFilterState.apply, hmn, hlt]

theorem userFilter_reachable_invariant_witness :
    ((⟨none, none, none, some 3⟩ : UserFilterState).apply
      (.set_threshold_min 5)).threshold_max = none :=
  (userFilter_reachable_invariant.2.1 ⟨none, none, none, some 3⟩ 5 3 rfl
    (by decide)).1

/-- Claim C9: the dispatcher invokes an attribute only when the
`rpc_method` decorator marked it; `_embed_text` and `handle_client` — and
every other unmarked or missing name — produce the `-32601`
method-not-found error without an invocation. -/
theorem rpc_dispatch_only_marked :
    (∀ method handler, rpcDispatch embedServerAttrs method = .invoked handler →
      alookup embedServerAttrs method = some true) ∧
    rpcDispatch embedServerAttrs "_embed_text" = .methodNotFound (-32601) ∧
    rpcDispatch embedServerAttrs "handle_client" = .methodNotFound (-32601) ∧
    (∀ method, alookup embedServerAttrs method ≠ some true →
      rpcDispatch embedServerAttrs method = .methodNotFound (-32601)) := by
  refine ⟨?_, by decide, by decide, ?_⟩
  · intro m h hm
    unfold rpcDispatch at hm
    cases ha : alookup embedServerAttrs m with
    | none => rw [ha] at hm; exact absurd hm (by simp)
    | some b =>
      cases b with
      | true => rfl
      | false => rw [ha] at hm; exact absurd hm (by simp)
  · intro m hm
    unfold rpcDispatch
    cases ha : alookup embedServerAttrs m with
    | none => rfl
    | some b =>
      cases b with
      | true => exact absurd ha hm
      | false => rfl

theorem rpc_dispatch_only_marked_witness :
    rpcDispatch embedServerAttrs "model" = .methodNotFound (-32601) :=
  rpc_dispatch_only_marked.2.2.2 "model" (by decide)

/-- Claim C6: a streaming result of `k` chunks is emitted as exactly `k`
frames, all echoing the request id, with `more = (i < k - 1)` — so every
frame but the last carries `true`, the last carries `false`, and a
single-chunk stream still carries `more := false`. -/
theorem streaming_reply_frames (request_id : Option Int) (chunks : List α) :
    (emitResponses request_id (.streaming chunks)).length = chunks.length ∧
    (∀ r ∈ emitResponses request_id (.streaming chunks), r.id = request_id) ∧
    (∀ i (h : i < (emitResponses request_id (.streaming chunks)).length),
      ((emitResponses request_id (.streaming chunks)).get ⟨i, h⟩).more =
        some (decide (i < chunks.length - 1))) ∧
    (∀ v : α, emitResponses request_id (.streaming [v]) =
      [⟨request_id, v, some false⟩]) := by
  refine ⟨?_, ?_, ?_, ?_⟩
  · simp [emitResponses]
  · intro r hr
    simp only [emitResponses] at hr
    rcases List.mem_map.mp hr with ⟨p, _, hp⟩
    rw [← hp]
  · intro i h
    simp only [emitResponses, List.get_eq_getElem, List.getElem_map,
      List.getElem_enum]
  · intro v; rfl

theorem streaming_reply_frames_witness :
    ((emitResponses (some 7) (.streaming ["a", "b"])).get ⟨1, by decide⟩).more =
      some false := by
  have h := (streaming_reply_frames (some 7) ["a", "b"]).2.2.1 1 (by decide)
  simpa using h

/-- Claim C5 counterexample: `limit = 2000` (outside `[1, 1000]`) is
accepted by `get_user_stats` and simply slices; `limit = 0` is accepted by
`search_posts_by_text` and returns the empty list; `top_k = 0` (outside
`[1, 100]`) is accepted by `search_similar` — no input is ever rejected
with a `ValueOutOfRange` error, which the claim asserts exists. -/
theorem value_out_of_range_never_raised :
    get_user_stats_handler true [("a", 3), ("b", 5)] 2000 =
      .ok [("b", 5), ("a", 3)] ∧
    fixtureEngine.search_posts_by_text "hello" 0 "content" = [] ∧
    isOkE (fixtureEngine.search_similar "|hello"
      ⟨UserFilterState.empty, DateFilterState.empty, 0⟩ "content" none) =
      true :=
  ⟨rfl, rfl, rfl⟩

/-- Claim C5 (amended): no range validation exists — `get_user_stats`
accepts every integer `limit` and returns at most the full user table, and
`search_posts_by_text` accepts every integer `limit` and returns at most
the full corpus; the bounds act only as Python slices. -/
theorem no_range_validation (counts : List (String × Int)) (limit : Int)
    (e : SearchEngine) (term source : String) :
    (∃ l, get_user_stats_handler true counts limit = .ok l ∧
      l.length ≤ counts.length) ∧
    (e.search_posts_by_text term limit source).length ≤ e.posts_data.length := by
  constructor
  · exact ⟨_, rfl, pySlice_sortDescBy_length_le _ limit counts⟩
  · unfold SearchEngine.search_posts_by_text
    exact le_trans (pySlice_sortDescBy_length_le _ limit _)
      (List.length_filterMap_le _ _)

/-- Claim C4 counterexample: a store whose two chunk files both contain
post id 5 loads successfully — `post_ids` keeps the duplicate and the
id-to-row map silently keeps the later row — instead of failing with a
`DuplicateId` error as the claim asserts. -/
theorem load_vectors_duplicate_id_loads :
    load_vectors [([5], [[1]]), ([5], [[2]])] =
      .ok ⟨[5, 5], some [[1], [2]], [(5, 1)], true⟩ ∧
    ¬ ([5, 5] : List Int).Nodup :=
  ⟨rfl, by decide⟩

/-- Claim C4 (amended): the loader performs no duplicate-id check at all:
whenever at least one chunk file is present the load succeeds and
`post_ids` is the unmodified concatenation of the chunk id lists, so a
successful load does not imply uniqueness. -/
theorem load_vectors_never_checks_duplicates
    (chunks : List (List Int × List Vec)) (h : chunks ≠ []) :
    ∃ s, load_vectors chunks = .ok s ∧
      s.post_ids = (chunks.map Prod.fst).flatten := by
  cases chunks with
  | nil => exact absurd rfl h
  | cons c cs => exact ⟨_, rfl, rfl⟩

theorem load_vectors_never_checks_duplicates_witness :
    ∃ s, load_vectors [([5], [[1]]), ([5], [[2]])] = .ok s ∧
      s.post_ids = [5, 5] :=
  load_vectors_never_checks_duplicates [([5], [[1]]), ([5], [[2]])]
    (List.cons_ne_nil _ _)

/-- Claim C3 counterexample: with only the content and reasoning stores
present (summary absent), the fusion mode `average` passes validation and
`vector_search` succeeds — the claim asserts it must fail with
`ModeUnavailable`. -/
theorem fusion_mode_accepted_with_two_stores :
    twoStoreEngine.summary_vectors = none ∧
    twoStoreEngine.validate_search_mode "average" = .ok () ∧
    isOkE (twoStoreEngine.vector_search "x" none "average" none) = true :=
  ⟨rfl, rfl, rfl⟩

/-- Claim C3 (amended): a fusion mode (`average`, `product`, `weighted`)
passes `_validate_search_mode` exactly when at least TWO of the three
stores are loaded and non-empty; with fewer than two it fails with the
mode-unavailable `ValueError`. -/
theorem fusion_mode_iff_two_stores (e : SearchEngine) (mode : String)
    (hmode : mode = "average" ∨ mode = "product" ∨ mode = "weighted") :
    isOkE (e.validate_search_mode mode) = true ↔
      2 ≤ availableStoreCount e := by
  rcases hmode with h | h | h <;> subst h <;>
    cases hc : nonemptyStore e.content_vectors <;>
    cases hr : nonemptyStore e.reasoning_vectors <;>
    cases hs : nonemptyStore e.summary_vectors <;>
    simp only [SearchEngine.validate_search_mode, SearchEngine.get_available_modes,
      availableStoreCount, hc, hr, hs] <;>
    decide

theorem fusion_mode_iff_two_stores_witness :
    isOkE (twoStoreEngine.validate_search_mode "product") = true ↔
      2 ≤ availableStoreCount twoStoreEngine :=
  fusion_mode_iff_two_stores twoStoreEngine "product" (Or.inr (Or.inl rfl))

end Twilog

namespace Twilog

/-- Claim C1 (code bug): at the spec §8 fixture, the scored stream of
`search_similar("|hello")` presents post 102 (`alice`, "hello world",
`2023-03-01`) before post 100 — the same `(user, content)` key with the
strictly smaller timestamp `2023-01-01` — yet the returned list still
carries post 102 at rank 1: the "replace with the earlier post" branch
(search_engine.py line 509) only overwrites the `seen_combinations` dict,
which is never read back, and the already-appended `filtered_results`
entry keeps the first-encountered post. -/
theorem search_similar_keeps_first_encountered_duplicate :
    (fixtureEngine.generate_text_results "hello" "content").map
        (fun p => (p.1.post_id, p.1.user, p.1.content, p.1.timestamp)) =
      [(102, "alice", "hello world", "2023-03-01 00:00:00"),
       (100, "alice", "hello world", "2023-01-01 00:00:00")] ∧
    strLt "2023-01-01 00:00:00" "2023-03-01 00:00:00" = true ∧
    fixtureEngine.search_similar "|hello" SearchSettingsState.default
        "content" none =
      .ok [(1, 1, ⟨102, "hello world", "2023-03-01 00:00:00",
        "https://twitter.com/alice/status/102", "alice", none, none, none⟩)] :=
  ⟨rfl, rfl, rfl⟩

/-- Claim C7: for every kernel and query, the store scan returns one
`(post_id, similarity)` pair per stored row — never truncated, a
permutation of the id column — and the output is pairwise non-increasing
in similarity. -/
theorem store_scan_complete_and_sorted (s : VectorStore)
    (kernel : Vec → Vec → ℚ) (q : Vec) (rows : List Vec)
    (hrows : s.vectors = some rows)
    (hlen : s.post_ids.length = rows.length) :
    (s.vector_search kernel q).length = rows.length ∧
    List.Perm ((s.vector_search kernel q).map Prod.fst) s.post_ids ∧
    (s.vector_search kernel q).Pairwise (fun a b => b.2 ≤ a.2) := by
  cases rows with
  | nil =>
    have hres : s.vector_search kernel q = [] := by
      unfold VectorStore.vector_search
      rw [hrows]
    have hp : s.post_ids = [] := List.length_eq_zero.mp (by simpa using hlen)
    rw [hres, hp]
    simp
  | cons v vs =>
    have hres : s.vector_search kernel q =
        (sortDescBy (fun a b => decide (a.2 < b.2))
          ((List.map (fun r => kernel r q) (v :: vs)).enum)).map
          (fun p => (s.post_ids.getD p.1 0, p.2)) := by
      unfold VectorStore.vector_search
      rw [hrows]
    rw [hres]
    refine ⟨?_, ?_, ?_⟩
    · rw [List.length_map, sortDescBy_length, List.enum_length,
        List.length_map]
    · have h1 : ((sortDescBy (fun a b => decide (a.2 < b.2))
          ((List.map (fun r => kernel r q) (v :: vs)).enum)).map
          (fun p => (s.post_ids.getD p.1 0, p.2))).map Prod.fst =
          (sortDescBy (fun a b => decide (a.2 < b.2))
            ((List.map (fun r => kernel r q) (v :: vs)).enum)).map
            (fun p => s.post_ids.getD p.1 0) := by
        rw [List.map_map]; rfl
      rw [h1]
      exact sorted_ids_perm s.post_ids _ (by simpa using hlen.symm) _
    · rw [List.pairwise_map]
      exact (sortDescBySims_pairwise _).imp (fun {a b} hab => hab)

theorem store_scan_complete_and_sorted_witness :
    (storeFix.vector_search dotQ [1]).length = 3 ∧
    List.Perm ((storeFix.vector_search dotQ [1]).map Prod.fst) [10, 11, 12] := by
  have h := store_scan_complete_and_sorted storeFix dotQ [1] [[1], [3], [2]]
    rfl rfl
  exact ⟨h.1, h.2.1⟩

/-- The fusion-free-of-text scoring stage maps sorted row indices through
the content id list, so its ids are a permutation of `post_ids`; the side
condition carries only the similarity-vector length, so instantiating it
never evaluates the similarity arithmetic. -/
theorem scoring_ids_perm_content (e : SearchEngine) (query mode : String)
    (weights : Option (List ℚ))
    (hvq : ¬ (parse_pipeline_query query).1 = "")
    (htf : (parse_pipeline_query query).2 = "")
    (hmode : e.validate_search_mode mode = .ok ())
    (hlen : (e.calculate_similarities
        (e.embed_text (parse_pipeline_query query).1) mode weights).map
        List.length = .ok e.post_ids.length) :
    ∃ res, e.vector_search query none mode weights = .ok res ∧
      List.Perm (res.map Prod.fst) e.post_ids := by
  cases hc : e.calculate_similarities
      (e.embed_text (parse_pipeline_query query).1) mode weights with
  | error err =>
    rw [hc] at hlen
    exact absurd hlen (by simp [Except.map])
  | ok sims =>
    rw [hc] at hlen
    have hslen : sims.length = e.post_ids.length := by
      simpa [Except.map] using hlen
    unfold SearchEngine.vector_search
    rw [if_neg hvq]
    simp only [hmode, hc]
    by_cases hz : sims.length = 0
    · rw [if_pos hz]
      have hp : e.post_ids = [] := List.length_eq_zero.mp (hslen ▸ hz)
      exact ⟨[], rfl, by simp [hp]⟩
    · rw [if_neg hz]
      refine ⟨_, rfl, ?_⟩
      have hdec : (decide (¬ (parse_pipeline_query query).2 = "")) = false := by
        simp [htf]
      rw [hdec, collectLoop_no_filter]
      simp only [List.nil_append]
      have h1 : ((sortDescBy (fun a b => decide (a.2 < b.2)) sims.enum).map
          (fun p => (e.post_ids.getD p.1 0, p.2))).map Prod.fst =
          (sortDescBy (fun a b => decide (a.2 < b.2)) sims.enum).map
            (fun p => e.post_ids.getD p.1 0) := by
        rw [List.map_map]; rfl
      rw [h1]
      exact sorted_ids_perm e.post_ids sims hslen _

/-- Claim C2 counterexample: three stores loaded with content ids `[1, 2]`,
reasoning ids `[2, 3]`, summary ids `[2, 4]` (two rows each); the
fusion-mode (`product`) scoring stage produces exactly the content ids
`{1, 2}`, while the three-store intersection is `[2]` — so id 1 is
produced although it is not common to the stores, refuting the claimed set
equality. -/
theorem fusion_ids_not_intersection :
    (∃ res, fusionEngine.vector_search "x" none "product" none = .ok res ∧
      List.Perm (res.map Prod.fst) [1, 2] ∧ (1 : Int) ∈ res.map Prod.fst) ∧
    (fusionEngine.post_ids.inter fusionReasoningIds).inter fusionSummaryIds =
      [2] ∧
    (1 : Int) ∉ ([2] : List Int) := by
  refine ⟨?_, by decide, by decide⟩
  obtain ⟨res, h1, h2⟩ := scoring_ids_perm_content fusionEngine "x" "product"
    none (by decide) rfl rfl rfl
  exact ⟨res, h1, h2, h2.mem_iff.mpr (by decide)⟩

/-- Claim C2 (amended): the fusion-mode scoring stage never intersects the
three stores — for every engine, kernel, validated mode and text-free
query, the multiset of produced `post_id` values is exactly the content
store's id list `post_ids` (row indices are mapped through it; no
common-set slicing exists anywhere). -/
theorem vector_search_ids_are_content_ids (e : SearchEngine)
    (query mode : String) (weights : Option (List ℚ))
    (hvq : ¬ (parse_pipeline_query query).1 = "")
    (htf : (parse_pipeline_query query).2 = "")
    (hmode : e.validate_search_mode mode = .ok ())
    (hlen : (e.calculate_similarities
        (e.embed_text (parse_pipeline_query query).1) mode weights).map
        List.length = .ok e.post_ids.length) :
    ∃ res, e.vector_search query none mode weights = .ok res ∧
      List.Perm (res.map Prod.fst) e.post_ids :=
  scoring_ids_perm_content e query mode weights hvq htf hmode hlen

theorem vector_search_ids_are_content_ids_witness :
    ∃ res, fusionEngine.vector_search "x" none "average" none = .ok res ∧
      List.Perm (res.map Prod.fst) [1, 2] :=
  vector_search_ids_are_content_ids fusionEngine "x" "average" none
    (by decide) rfl rfl rfl

/-- Claim C8: when the parsed query has an empty vector part, an empty text
part raises the empty-query error; a non-empty text part under a fusion
mode raises the hybrid-not-supported error; under a single-source mode the
call reduces to the text path — the filtering loop over the substring
search for the source equal to the mode — and every returned hit carries
score `1.0`. -/
theorem search_similar_text_only_path (e : SearchEngine)
    (settings : SearchSettingsState) (query mode : String)
    (weights : Option (List ℚ))
    (hvq : (parse_pipeline_query query).1 = "") :
    ((parse_pipeline_query query).2 = "" →
      e.search_similar query settings mode weights = .error .emptyQuery) ∧
    ((parse_pipeline_query query).2 ≠ "" →
      (mode = "average" ∨ mode = "product" ∨ mode = "weighted") →
      e.search_similar query settings mode weights =
        .error (.hybridNotSupported mode)) ∧
    ((parse_pipeline_query query).2 ≠ "" →
      (mode = "content" ∨ mode = "reasoning" ∨ mode = "summary") →
      e.search_similar query settings mode weights =
        .ok (searchFilterLoop e settings
          (e.generate_text_results (parse_pipeline_query query).2 mode)
          [] [] 1) ∧
      ∀ r ∈ searchFilterLoop e settings
          (e.generate_text_results (parse_pipeline_query query).2 mode)
          [] [] 1, r.2.1 = 1) := by
  refine ⟨?_, ?_, ?_⟩
  · intro htf
    unfold SearchEngine.search_similar
    rw [if_pos hvq, if_pos htf]
  · intro htf hmode
    have hconv : convert_mode_to_source mode = .error (.hybridNotSupported mode) := by
      rcases hmode with h | h | h <;> subst h <;> rfl
    unfold SearchEngine.search_similar
    rw [if_pos hvq, if_neg htf, hconv]
  · intro htf hmode
    have hconv : convert_mode_to_source mode = .ok mode := by
      rcases hmode with h | h | h <;> subst h <;> rfl
    constructor
    · unfold SearchEngine.search_similar
      rw [if_pos hvq, if_neg htf, hconv]
    · refine searchFilterLoop_scores e settings _ [] [] 1 ?_ (by simp)
      intro p hp
      unfold SearchEngine.generate_text_results at hp
      rcases List.mem_map.mp hp with ⟨r, _, hr⟩
      rw [← hr]

theorem search_similar_text_only_path_witness :
    fixtureEngine.search_similar "|bob" SearchSettingsState.default
        "content" none =
      .ok (searchFilterLoop fixtureEngine SearchSettingsState.default
        (fixtureEngine.generate_text_results "bob" "content") [] [] 1) ∧
    ∀ r ∈ searchFilterLoop fixtureEngine SearchSettingsState.default
        (fixtureEngine.generate_text_results "bob" "content") [] [] 1,
      r.2.1 = 1 := by
  have h := (search_similar_text_only_path fixtureEngine
    SearchSettingsState.default "|bob" "content" none rfl).2.2
    (by decide) (Or.inl rfl)
  exact h

end Twilog
